import Mathlib

/-!
Shallow embedding of `src/ext/paginator.py` (class `PaginatorSession`).

Modelling conventions:
  * A Discord `Embed` is a record with the fields the code touches; `set_footer`
    overwrites the `footer` field, as in discord.py.
  * Side effects on the chat transport (send / edit / delete / reactions / sleep)
    are recorded in a trace of `Effect`s.  A `send` allocates a fresh message id
    from a counter `nid` that is threaded through every operation.
  * Python exceptions are modelled with `Except PyErr`.  Operations wrapped by
    the code in `try ... except: pass` are modelled by an `...Attempt` effect in
    the trace plus a discarded `tryX` result driven by a failure `Oracle`, so
    "best effort, failures swallowed" is visible at the call site.
  * `wait_for` is modelled by consuming a list of already-filtered incoming
    events; an explicit `timeout` event (or an exhausted list) models
    `asyncio.TimeoutError`.
  * The code's `self.paginating = False` on timeout assigns an attribute that is
    never read anywhere; it is modelled by the otherwise-unused field
    `paginating : Option Bool` (`none` until first assigned).
-/

namespace Paginator

structure Embed where
  title : Option String
  description : Option String
  footer : Option String
  color : Nat
  fields : List (String × String)
deriving DecidableEq, Repr

def emptyEmbed : Embed := ⟨none, none, none, 0, []⟩

/-- Models `discord.Embed.set_footer(text=...)`: the footer is overwritten. -/
def setFooter (e : Embed) (text : String) : Embed := { e with footer := some text }

inductive PyErr where
  | typeError (msg : String)
  | attributeError
  | transportError
deriving DecidableEq, Repr

inductive Effect where
  | send (msgId : Nat) (embed : Embed)
  | sendText (msgId : Nat) (text : String)
  | edit (msgId : Nat) (embed : Embed)
  | addReaction (msgId : Nat) (glyph : Char)
  | removeReactionAttempt (msgId : Nat) (glyph : Char)
  | clearReactionsAttempt (msgId : Nat)
  | delete (msgId : Nat)
  | deleteMessagesAttempt (msgIds : List Nat)
  | sleep (units : Nat)
deriving DecidableEq, Repr

/-- The navigation actions stored in `reaction_map`, as a closed enum. -/
inductive RAction where
  | first
  | prev
  | close
  | next
  | last
  | jump
  | help
deriving DecidableEq, Repr

structure Session where
  ctxAuthor : Nat
  ctxChannel : Nat
  timeout : Nat
  pages : List Embed
  running : Bool
  base : Option Nat
  current : Int
  help_color : Nat
  page_num_enabled : Bool
  paginating : Option Bool
deriving DecidableEq, Repr

/-- The `OrderedDict` of `__init__`, keys in insertion order. -/
def reaction_map : List (Char × RAction) :=
  [('⏮', RAction.first), ('◀', RAction.prev), ('⏹', RAction.close),
   ('▶', RAction.next), ('⏭', RAction.last), ('🔢', RAction.jump),
   ('🤔', RAction.help)]

/-- Constructor `__init__` (ctx reduced to the author and channel ids). -/
def mkSession (author channel : Nat) (timeout : Nat) (pages : List Embed)
    (page_nums : Bool) (help_color : Nat) : Session :=
  { ctxAuthor := author
    ctxChannel := channel
    timeout := timeout
    pages := pages
    running := false
    base := none
    current := 0
    help_color := help_color
    page_num_enabled := page_nums
    paginating := none }

/-- An arbitrary Python value handed to `add_page`: either a `discord.Embed`
or some other object (identified by a tag). -/
inductive Doc where
  | embed (e : Embed)
  | other (tag : String)
deriving DecidableEq, Repr

/-- Method `add_page`. -/
def add_page (s : Session) (d : Doc) : Except PyErr Session :=
  match d with
  | Doc.embed e => Except.ok { s with pages := s.pages ++ [e] }
  | Doc.other _ => Except.error (PyErr.typeError "Page must be an Embed object.")

/-- Method `valid_page`. -/
def valid_page (s : Session) (index : Int) : Bool :=
  if index < 0 ∨ index + 1 > (s.pages.length : Int) then false else true

def pageFooter (num total : Nat) : String := s!"Page {num}/{total}"

/-- Reactions attached on first render: every key of `reaction_map` except,
when the page count is exactly 2, the glyphs contained in the string `"⏮⏭"`. -/
def firstRenderReactions (nid : Nat) (n : Nat) : List Effect :=
  ((reaction_map.map Prod.fst).filter
      (fun r => !(n == 2 && ("⏮⏭".toList.contains r)))).map
    (fun r => Effect.addReaction nid r)

/-- Method `show_page`. -/
def show_page (s : Session) (nid : Nat) (index : Int) :
    Except PyErr (Session × List Effect × Nat) :=
  if valid_page s index = false then Except.ok (s, [], nid)
  else
    let i := index.toNat
    let page0 := s.pages.getD i emptyEmbed
    let page :=
      if s.page_num_enabled then setFooter page0 (pageFooter (i + 1) s.pages.length)
      else page0
    let pages1 := if s.page_num_enabled then s.pages.set i page else s.pages
    let s1 := { s with current := index, pages := pages1 }
    if s1.running then
      match s1.base with
      | some b => Except.ok (s1, [Effect.edit b page], nid)
      | none => Except.error PyErr.attributeError
    else
      let s2 := { s1 with running := true, base := some nid }
      Except.ok (s2, Effect.send nid page :: firstRenderReactions nid s2.pages.length,
        nid + 1)

/-- The page document `show_page` displays for (valid) index `i'`: the stored
page, with the numbering footer stamped when enabled. -/
def renderedPage (s : Session) (i' : Nat) : Embed :=
  if s.page_num_enabled then
    setFooter (s.pages.getD i' emptyEmbed) (pageFooter (i' + 1) s.pages.length)
  else s.pages.getD i' emptyEmbed

/-- The page list after `show_page` rendered index `i'` (`set_footer` mutates
the embed stored in `pages`). -/
def renderedPages (s : Session) (i' : Nat) : List Embed :=
  if s.page_num_enabled then s.pages.set i' (renderedPage s i') else s.pages

/-- The session state after a successful first render of index `i` by
`show_page` (the branch with `running` false): cursor moved, footer stamped,
now running, and the sent message (id `nid`) recorded. -/
def freshSession (s : Session) (nid : Nat) (i : Int) : Session :=
  { s with
    current := i
    pages := renderedPages s i.toNat
    running := true
    base := some nid }

/-- The session state after a successful re-render of index `i` by `show_page`
while already running: cursor moved and footer stamped. -/
def editedSession (s : Session) (i : Int) : Session :=
  { s with
    current := i
    pages := renderedPages s i.toNat }

/-- Method `previous_page`. -/
def previous_page (s : Session) (nid : Nat) : Except PyErr (Session × List Effect × Nat) :=
  show_page s nid (s.current - 1)

/-- Method `next_page`. -/
def next_page (s : Session) (nid : Nat) : Except PyErr (Session × List Effect × Nat) :=
  show_page s nid (s.current + 1)

/-- Method `first_page`. -/
def first_page (s : Session) (nid : Nat) : Except PyErr (Session × List Effect × Nat) :=
  show_page s nid 0

/-- Method `last_page`. -/
def last_page (s : Session) (nid : Nat) : Except PyErr (Session × List Effect × Nat) :=
  show_page s nid ((s.pages.length : Int) - 1)

/-- Method `react_check` (the final fall-through `None` is collapsed to `false`). -/
def react_check (s : Session) (userId msgId : Nat) (emoji : Char) : Bool :=
  userId == s.ctxAuthor && s.base == some msgId &&
    (reaction_map.map Prod.fst).contains emoji

/-- Python `str.isdigit`: nonempty and all decimal digits. -/
def pyIsDigit (t : String) : Bool := !t.data.isEmpty && t.data.all Char.isDigit

/-- Python `int(...)` applied to an all-digit string. -/
def pyParseNat (t : String) : Nat :=
  t.data.foldl (fun n c => n * 10 + (c.toNat - 48)) 0

/-- Method `message_check`. -/
def message_check (s : Session) (author channel : Nat) (content : String) : Bool :=
  author == s.ctxAuthor && s.ctxChannel == channel && pyIsDigit content

/-- Docstrings returned by `inspect.getdoc` for each action. -/
def docOf : RAction → String
  | RAction.first => "Go to immediately to the first page"
  | RAction.prev => "Go to the previous page."
  | RAction.close => "Delete this embed."
  | RAction.next => "Go to the next page"
  | RAction.last => "Go to immediately to the last page"
  | RAction.jump => "Type in the page number."
  | RAction.help => "Shows this page."

def helpLine (p : Char × RAction) : String :=
  let g := p.1
  let d := docOf p.2
  s!"{g} - {d}\n"

def helpLines : String := (reaction_map.map helpLine).foldl (· ++ ·) ""

/-- Method `show_help_page`. -/
def show_help_page (s : Session) : Except PyErr (Session × List Effect) :=
  let em0 : Embed :=
    { title := some "Pagination Session - Help"
      description := some "React with each of the following reactions to navigate."
      footer := none
      color := s.help_color
      fields := [("Reactions?", helpLines)] }
  let em :=
    if s.page_num_enabled then
      setFooter em0 (pageFooter (s.current.toNat + 1) s.pages.length)
    else em0
  match s.base with
  | some b => Except.ok (s, [Effect.edit b em])
  | none => Except.error PyErr.attributeError

/-- Method `close`. -/
def close (s : Session) (delete : Bool) : Except PyErr (Session × List Effect) :=
  let s1 := { s with running := false }
  if delete then
    match s1.base with
    | some b => Except.ok (s1, [Effect.delete b])
    | none => Except.error PyErr.attributeError
  else
    Except.ok (s1, [])

/-- Which transport operations fail; everything it drives is wrapped by the
code in a blanket `try ... except: pass`. -/
structure Oracle where
  removeReactionFails : Bool
  clearReactionsFails : Bool
  deleteMessagesFails : Bool
deriving DecidableEq, Repr

def tryRemoveReaction (o : Oracle) : Except PyErr Unit :=
  if o.removeReactionFails then Except.error PyErr.transportError else Except.ok ()

def tryClearReactions (o : Oracle) : Except PyErr Unit :=
  if o.clearReactionsFails then Except.error PyErr.transportError else Except.ok ()

def tryDeleteMessages (o : Oracle) : Except PyErr Unit :=
  if o.deleteMessagesFails then Except.error PyErr.transportError else Except.ok ()

def promptText : String := "What page do you want to go to?"

def invalidPageMsg (page total : Nat) : String :=
  s!"Invalid page given. ({page}/{total})"

/-- Outcome of the nested `wait_for('message', check=self.message_check, timeout=30.0)`:
either a filtered message (id and all-digit content) arrives, or it times out. -/
inductive JumpEvent where
  | timeout
  | message (msgId : Nat) (content : String)
deriving DecidableEq, Repr

/-- Method `ask_for_page`.  `nid` is the id given to the prompt message; a
notice message (if any) gets the next id.  The trailing
`try: sleep(5); delete_messages(to_delete) except Exception: pass` is the
`sleep`/`deleteMessagesAttempt` pair with the `tryDeleteMessages` result
discarded. -/
def ask_for_page (o : Oracle) (s : Session) (nid : Nat) (ev : JumpEvent) :
    Except PyErr (Session × List Effect × Nat) :=
  let promptId := nid
  let prompt := Effect.sendText promptId promptText
  let nid1 := nid + 1
  match ev with
  | JumpEvent.timeout =>
    let noticeId := nid1
    let notice := Effect.sendText noticeId "Took too long."
    let toDel := [promptId, noticeId]
    let _ := tryDeleteMessages o
    Except.ok (s, [prompt, notice, Effect.sleep 5, Effect.deleteMessagesAttempt toDel],
      nid1 + 1)
  | JumpEvent.message mid content =>
    let page := pyParseNat content
    if page ≠ 0 ∧ page ≤ s.pages.length then
      match show_page s nid1 ((page : Int) - 1) with
      | Except.error e => Except.error e
      | Except.ok (s1, effs, nid2) =>
        let toDel := [promptId, mid]
        let _ := tryDeleteMessages o
        Except.ok (s1, prompt :: effs ++ [Effect.sleep 5, Effect.deleteMessagesAttempt toDel],
          nid2)
    else
      let noticeId := nid1
      let notice := Effect.sendText noticeId (invalidPageMsg page s.pages.length)
      let toDel := [promptId, mid, noticeId]
      let _ := tryDeleteMessages o
      Except.ok (s, [prompt, notice, Effect.sleep 5, Effect.deleteMessagesAttempt toDel],
        nid1 + 1)

/-- One delivery of the outer `wait_for('reaction_add', check=self.react_check,
timeout=self.timeout)`: a qualifying reaction's glyph, or a timeout. -/
inductive OuterEvent where
  | timeout
  | react (emoji : Char)
deriving DecidableEq, Repr

/-- Python `self.reaction_map.get(reaction.emoji)`. -/
def lookupAction (emoji : Char) : Option RAction :=
  (reaction_map.find? (fun p => p.1 == emoji)).map Prod.snd

/-- Dispatch of `await show_page()` where `show_page` is the looked-up bound
method.  The jump action consumes the supplied nested event. -/
def applyAction (o : Oracle) (a : RAction) (s : Session) (nid : Nat) (jev : JumpEvent) :
    Except PyErr (Session × List Effect × Nat) :=
  match a with
  | RAction.first => first_page s nid
  | RAction.prev => previous_page s nid
  | RAction.close =>
    match close s true with
    | Except.error e => Except.error e
    | Except.ok (s1, effs) => Except.ok (s1, effs, nid)
  | RAction.next => next_page s nid
  | RAction.last => last_page s nid
  | RAction.jump => ask_for_page o s nid jev
  | RAction.help =>
    match show_help_page s with
    | Except.error e => Except.error e
    | Except.ok (s1, effs) => Except.ok (s1, effs, nid)

/-- The `except asyncio.TimeoutError` branch of `run`: `self.paginating = False`
(note: not `self.running`), then `try: clear_reactions except: pass`, then
`finally: break`. -/
def timeoutExit (o : Oracle) (s : Session) (nid : Nat) (acc : List Effect) :
    Except PyErr (Session × List Effect × Nat) :=
  let s1 := { s with paginating := some false }
  let ce : List Effect :=
    match s1.base with
    | some b => [Effect.clearReactionsAttempt b]
    | none => []
  let _ := tryClearReactions o
  Except.ok (s1, acc ++ ce, nid)

/-- The `while self.running` loop of `run`, consuming at most one outer event
per iteration.  An exhausted event list also models a timed-out wait. -/
def runLoop (o : Oracle) :
    List OuterEvent → List JumpEvent → Session → Nat → List Effect →
      Except PyErr (Session × List Effect × Nat)
  | evs, jevs, s, nid, acc =>
    if s.running = true then
      match evs with
      | [] => timeoutExit o s nid acc
      | OuterEvent.timeout :: _ => timeoutExit o s nid acc
      | OuterEvent.react emoji :: rest =>
        let _ := tryRemoveReaction o
        let racc := acc ++
          (match s.base with
           | some b => [Effect.removeReactionAttempt b emoji]
           | none => [])
        match lookupAction emoji with
        | none => Except.error (PyErr.typeError "NoneType object is not callable")
        | some a =>
          match applyAction o a s nid (jevs.headD JumpEvent.timeout) with
          | Except.error e => Except.error e
          | Except.ok (s1, effs, nid1) =>
            runLoop o rest (if a = RAction.jump then jevs.tail else jevs) s1 nid1
              (racc ++ effs)
    else
      Except.ok (s, acc, nid)

/-- Method `run`. -/
def run (o : Oracle) (s : Session) (nid : Nat) (evs : List OuterEvent)
    (jevs : List JumpEvent) : Except PyErr (Session × List Effect × Nat) :=
  match (if s.running = false then show_page s nid 0 else Except.ok (s, [], nid)) with
  | Except.error e => Except.error e
  | Except.ok (s1, effs, nid1) => runLoop o evs jevs s1 nid1 effs

/-- The pure navigation actions of the spec, for quantifying over action
sequences. -/
inductive Nav where
  | prev
  | next
  | first
  | last
deriving DecidableEq, Repr

def applyNav (s : Session) (nid : Nat) : Nav → Except PyErr (Session × List Effect × Nat)
  | Nav.prev => previous_page s nid
  | Nav.next => next_page s nid
  | Nav.first => first_page s nid
  | Nav.last => last_page s nid

def applyNavs : List Nav → Session → Nat → Except PyErr (Session × List Effect × Nat)
  | [], s, nid => Except.ok (s, [], nid)
  | a :: rest, s, nid =>
    match applyNav s nid a with
    | Except.error e => Except.error e
    | Except.ok (s1, effs1, nid1) =>
      match applyNavs rest s1 nid1 with
      | Except.error e => Except.error e
      | Except.ok (s2, effs2, nid2) => Except.ok (s2, effs1 ++ effs2, nid2)

/-- Well-formedness: a running session has a displayed message.  Holds for
every freshly constructed session and is preserved by `show_page`. -/
def WF (s : Session) : Prop := s.running = true → s.base.isSome = true

/-- Reaction set of the spec sentence: all controls, except the first/last
glyphs exactly when the page count is 2. -/
def attachedControls (n : Nat) : List Char :=
  if n = 2 then ['◀', '⏹', '▶', '🔢', '🤔'] else reaction_map.map Prod.fst

/-!
Heap model for the construction-time default `pages=[]`.  In Python the
default object is evaluated once, when `def __init__` is executed, and every
call that omits `pages` binds `self.pages` to that same list object.  The
store holds the list objects; an address is an index into it; address 0 is
the one default list created at definition time.
-/

structure PStore where
  lists : List (List Embed)
deriving DecidableEq, Repr

/-- The store right after `def __init__` is evaluated: it already contains the
single shared default list object `[]` at address 0. -/
def initStore : PStore := ⟨[[]]⟩

def defaultPagesRef : Nat := 0

/-- Constructing a session with `pages` omitted: `self.pages` is bound to the
shared default object; no allocation happens. -/
def mkSessionDefault (st : PStore) : Nat × PStore := (defaultPagesRef, st)

/-- Constructing a session with an explicit `pages` argument: the caller's
list object is a fresh one in the store. -/
def mkSessionWith (st : PStore) (ps : List Embed) : Nat × PStore :=
  (st.lists.length, ⟨st.lists ++ [ps]⟩)

/-- `add_page` against the heap model: `self.pages.append(embed)` mutates the
list object `self.pages` refers to. -/
def storeAddPage (st : PStore) (r : Nat) (d : Doc) : Except PyErr PStore :=
  match d with
  | Doc.embed e => Except.ok ⟨st.lists.set r ((st.lists.getD r []) ++ [e])⟩
  | Doc.other _ => Except.error (PyErr.typeError "Page must be an Embed object.")

def pagesOf (st : PStore) (r : Nat) : List Embed := st.lists.getD r []

/-! Concrete fixtures used by witnesses and counterexamples. -/

def o0 : Oracle := ⟨false, false, false⟩

def pageA : Embed := { emptyEmbed with title := some "A" }

def pageB : Embed := { emptyEmbed with title := some "B" }

def sA : Session := mkSession 1 2 60 [pageA] true 65535

def sAB : Session := mkSession 1 2 60 [pageA, pageB] true 65535

def sLive : Session := { sA with running := true, base := some 100 }

/-- The session state `run o0 sA 100 [timeout, ...] []` ends in: page 0 was
rendered (footer stamped into the stored page), the message was sent and
decorated, and the timeout handler set the never-read `paginating` attribute —
while `running` is still `true`. -/
def sAfterTimeout : Session :=
  { sA with
    pages := [setFooter pageA (pageFooter 1 1)]
    current := 0
    running := true
    base := some 100
    paginating := some false }

/-! Helper lemmas. -/

theorem valid_page_true_iff (s : Session) (i : Int) :
    valid_page s i = true ↔ 0 ≤ i ∧ i < (s.pages.length : Int) := by
  unfold valid_page
  split <;> rename_i h <;> simp <;> omega

theorem valid_page_false_iff (s : Session) (i : Int) :
    valid_page s i = false ↔ i < 0 ∨ (s.pages.length : Int) ≤ i := by
  unfold valid_page
  split <;> rename_i h <;> simp <;> omega

theorem show_page_of_invalid (s : Session) (nid : Nat) (i : Int)
    (h : valid_page s i = false) : show_page s nid i = Except.ok (s, [], nid) := by
  simp [show_page, h]

theorem length_ite_set (c : Prop) [Decidable c] (l : List Embed) (i : Nat) (p : Embed) :
    (if c then l.set i p else l).length = l.length := by
  split <;> simp

theorem getD_set_self {α : Type} (l : List α) (j : Nat) (a d : α) (h : j < l.length) :
    (l.set j a).getD j d = a := by
  induction l generalizing j with
  | nil => simp at h
  | cons x xs ih =>
    cases j with
    | zero => rfl
    | succ j' =>
      simp only [List.set_cons_succ, List.getD_cons_succ]
      exact ih j' (by simpa using h)

theorem renderedPages_length (s : Session) (i' : Nat) :
    (renderedPages s i').length = s.pages.length := by
  unfold renderedPages
  split <;> simp

theorem renderedPages_getD (s : Session) (i' : Nat) (h : i' < s.pages.length)
    (hnum : s.page_num_enabled = true) :
    (renderedPages s i').getD i' emptyEmbed = renderedPage s i' := by
  unfold renderedPages
  rw [if_pos hnum]
  exact getD_set_self _ _ _ _ h

/-- Unfolding of `show_page` at a valid index while the session is not yet
running (the first render): send a message, go running, attach reactions. -/
theorem show_page_fresh_eq (s : Session) (nid : Nat) (i : Int)
    (hrun : s.running = false) (hv : valid_page s i = true) :
    show_page s nid i =
      Except.ok (freshSession s nid i,
        Effect.send nid (renderedPage s i.toNat) ::
          firstRenderReactions nid (renderedPages s i.toNat).length, nid + 1) := by
  have hvf : ¬ valid_page s i = false := by simp [hv]
  unfold show_page
  rw [if_neg hvf]
  simp [hrun, renderedPage, renderedPages, freshSession]

/-- Unfolding of `show_page` at a valid index while the session is running:
the displayed message is edited in place. -/
theorem show_page_run_eq (s : Session) (nid : Nat) (i : Int) (b : Nat)
    (hrun : s.running = true) (hb : s.base = some b) (hv : valid_page s i = true) :
    show_page s nid i =
      Except.ok (editedSession s i, [Effect.edit b (renderedPage s i.toNat)], nid) := by
  have hvf : ¬ valid_page s i = false := by simp [hv]
  unfold show_page
  rw [if_neg hvf]
  simp [hrun, hb, renderedPage, renderedPages, editedSession]

/-- C6: `show_page(i)` with an invalid index is a silent no-op: the session
(in particular `cursor` and `running`) is returned unchanged and the effect
trace is empty — nothing is sent or edited. -/
theorem show_page_invalid_is_noop (s : Session) (nid : Nat) (i : Int)
    (h : valid_page s i = false) : show_page s nid i = Except.ok (s, [], nid) := by
  simp [show_page, h]

theorem show_page_invalid_is_noop_witness :
    valid_page sA 5 = false ∧ show_page sA 77 5 = Except.ok (sA, [], 77) :=
  ⟨by decide, show_page_invalid_is_noop sA 77 5 (by decide)⟩

/-- C5: when the nested `wait_for` of the page-jump dialog times out, for every
failure oracle `ask_for_page` returns normally (no error propagates) with the
session unchanged (cursor untouched), having sent the prompt and a
"Took too long." notice, slept the fixed 5 units, and then requested a
best-effort batch delete of exactly the recorded messages (prompt and notice). -/
theorem ask_for_page_timeout_cleanup (o : Oracle) (s : Session) (nid : Nat) :
    ask_for_page o s nid JumpEvent.timeout =
      Except.ok (s, [Effect.sendText nid promptText,
        Effect.sendText (nid + 1) "Took too long.",
        Effect.sleep 5, Effect.deleteMessagesAttempt [nid, nid + 1]], nid + 1 + 1) := rfl

/-- C9: `close(delete=True)` sets `running` to false and requests deletion of
the displayed message exactly once; `close(delete=False)` sets `running` to
false and requests no deletion. -/
theorem close_requests_delete_once (s : Session) (b : Nat) (h : s.base = some b) :
    close s true = Except.ok ({ s with running := false }, [Effect.delete b]) ∧
    close s false = Except.ok ({ s with running := false }, []) := by
  refine ⟨?_, rfl⟩
  simp [close, h]

theorem close_requests_delete_once_witness :
    sLive.base = some 100 ∧
      (close sLive true = Except.ok ({ sLive with running := false }, [Effect.delete 100]) ∧
       close sLive false = Except.ok ({ sLive with running := false }, [])) :=
  ⟨rfl, close_requests_delete_once sLive 100 rfl⟩

/-- C10: `add_page` appends the document to the page sequence when it is an
`Embed`, and otherwise fails immediately with the `TypeError` (the page
sequence of the session is untouched — the error carries no modified session);
these two cases are exhaustive, so this is the only validation failure a
caller can see. -/
theorem add_page_append_or_type_error (s : Session) :
    (∀ e : Embed, add_page s (Doc.embed e) = Except.ok { s with pages := s.pages ++ [e] }) ∧
    (∀ t : String, add_page s (Doc.other t) =
        Except.error (PyErr.typeError "Page must be an Embed object.")) :=
  ⟨fun _ => rfl, fun _ => rfl⟩

/-- C3 (refuting evaluation): two sessions constructed without an explicit page
list bind the same default list object (same address), and `add_page` through
the first session is observable in the `pages` of the second — the claim's
"never observable in the `pages` of another session" fails at this input. -/
theorem default_pages_shared_across_sessions :
    (mkSessionDefault initStore).1 = (mkSessionDefault (mkSessionDefault initStore).2).1 ∧
    storeAddPage (mkSessionDefault (mkSessionDefault initStore).2).2
        (mkSessionDefault initStore).1 (Doc.embed pageA) =
      Except.ok ⟨[[pageA]]⟩ ∧
    pagesOf ⟨[[pageA]]⟩ (mkSessionDefault (mkSessionDefault initStore).2).1 = [pageA] :=
  ⟨rfl, rfl, rfl⟩

/-- Any `show_page` call, from a well-formed state with an in-range cursor,
returns normally and preserves well-formedness and the cursor range
invariant. -/
theorem show_page_inv (s : Session) (nid : Nat) (i : Int)
    (hwf : WF s) (h0 : 0 ≤ s.current) (h1 : s.current < (s.pages.length : Int)) :
    ∃ s1 effs n1, show_page s nid i = Except.ok (s1, effs, n1) ∧
      WF s1 ∧ 0 ≤ s1.current ∧ s1.current < (s1.pages.length : Int) := by
  by_cases hv : valid_page s i = false
  · exact ⟨s, [], nid, show_page_of_invalid s nid i hv, hwf, h0, h1⟩
  · have hvt : valid_page s i = true := by
      revert hv
      cases valid_page s i <;> simp
    obtain ⟨hi0, hilt⟩ := (valid_page_true_iff s i).mp hvt
    by_cases hr : s.running = true
    · obtain ⟨b, hb⟩ : ∃ b, s.base = some b := by
        have hs := hwf hr
        cases hbase : s.base with
        | none => rw [hbase] at hs; simp at hs
        | some b => exact ⟨b, rfl⟩
      refine ⟨editedSession s i, _, nid, show_page_run_eq s nid i b hr hb hvt, ?_, ?_, ?_⟩
      · intro _
        simp [editedSession, hb]
      · simpa [editedSession] using hi0
      · simpa [editedSession, renderedPages_length] using hilt
    · have hrf : s.running = false := by
        revert hr
        cases s.running <;> simp
      refine ⟨freshSession s nid i, _, nid + 1,
        show_page_fresh_eq s nid i hrf hvt, ?_, ?_, ?_⟩
      · intro _
        simp [freshSession]
      · simpa [freshSession] using hi0
      · simpa [freshSession, renderedPages_length] using hilt

/-- Every sequence of navigation actions runs without error and preserves
well-formedness and the cursor range invariant. -/
theorem applyNavs_inv (navs : List Nav) :
    ∀ (s : Session) (nid : Nat), WF s → 0 ≤ s.current →
      s.current < (s.pages.length : Int) →
      ∃ s1 effs n1, applyNavs navs s nid = Except.ok (s1, effs, n1) ∧
        WF s1 ∧ 0 ≤ s1.current ∧ s1.current < (s1.pages.length : Int) := by
  induction navs with
  | nil =>
    intro s nid hwf h0 h1
    exact ⟨s, [], nid, rfl, hwf, h0, h1⟩
  | cons a rest ih =>
    intro s nid hwf h0 h1
    obtain ⟨s1, effs1, n1, heq1, hwf1, h01, h11⟩ :
        ∃ s1 effs n1, applyNav s nid a = Except.ok (s1, effs, n1) ∧
          WF s1 ∧ 0 ≤ s1.current ∧ s1.current < (s1.pages.length : Int) := by
      cases a with
      | prev => exact show_page_inv s nid (s.current - 1) hwf h0 h1
      | next => exact show_page_inv s nid (s.current + 1) hwf h0 h1
      | first => exact show_page_inv s nid 0 hwf h0 h1
      | last => exact show_page_inv s nid ((s.pages.length : Int) - 1) hwf h0 h1
    obtain ⟨s2, effs2, n2, heq2, hwf2, h02, h12⟩ := ih s1 n1 hwf1 h01 h11
    exact ⟨s2, effs1 ++ effs2, n2, by simp [applyNavs, heq1, heq2], hwf2, h02, h12⟩

/-- C2: from any well-formed session with a non-empty page list and in-range
cursor, every sequence of the four navigation actions keeps the cursor in
`[0, len(pages))`; moreover `previous_page` at cursor 0 and `next_page` at the
last index are exact no-ops — unchanged session, empty effect trace. -/
theorem navigation_stays_in_bounds (s : Session) (nid : Nat)
    (_hne : s.pages ≠ []) (hwf : WF s)
    (h0 : 0 ≤ s.current) (h1 : s.current < (s.pages.length : Int)) :
    (∀ navs : List Nav, ∃ s1 effs n1,
        applyNavs navs s nid = Except.ok (s1, effs, n1) ∧
        0 ≤ s1.current ∧ s1.current < (s1.pages.length : Int)) ∧
    (s.current = 0 → previous_page s nid = Except.ok (s, [], nid)) ∧
    (s.current = (s.pages.length : Int) - 1 →
      next_page s nid = Except.ok (s, [], nid)) := by
  refine ⟨?_, ?_, ?_⟩
  · intro navs
    obtain ⟨s1, effs, n1, heq, _, h0x, h1x⟩ := applyNavs_inv navs s nid hwf h0 h1
    exact ⟨s1, effs, n1, heq, h0x, h1x⟩
  · intro hc
    have hinv : valid_page s (s.current - 1) = false := by
      rw [valid_page_false_iff]
      omega
    exact show_page_of_invalid s nid (s.current - 1) hinv
  · intro hc
    have hinv : valid_page s (s.current + 1) = false := by
      rw [valid_page_false_iff]
      omega
    exact show_page_of_invalid s nid (s.current + 1) hinv

theorem navigation_stays_in_bounds_witness :
    sA.pages ≠ [] ∧
      ((∀ navs : List Nav, ∃ s1 effs n1,
          applyNavs navs sA 7 = Except.ok (s1, effs, n1) ∧
          0 ≤ s1.current ∧ s1.current < (s1.pages.length : Int)) ∧
       (sA.current = 0 → previous_page sA 7 = Except.ok (sA, [], 7)) ∧
       (sA.current = (sA.pages.length : Int) - 1 →
         next_page sA 7 = Except.ok (sA, [], 7))) :=
  ⟨by decide, navigation_stays_in_bounds sA 7 (by decide)
    (by intro h; exact absurd h (by decide)) (by decide) (by decide)⟩

theorem controls_filter_eq (n : Nat) :
    (reaction_map.map Prod.fst).filter
        (fun r => !(n == 2 && ("⏮⏭".toList.contains r))) = attachedControls n := by
  by_cases h : n = 2
  · subst h; rfl
  · have hb : (n == 2) = false := by simpa using h
    simp [attachedControls, h, hb, reaction_map]

/-- C8: a successful `show_page` on a not-yet-running session sends exactly one
new message, sets `running` to true, records the new message handle, and
attaches one reaction per control glyph in the insertion order of
`reaction_map` — with the first/last glyphs omitted exactly when the page
count is 2 (`attachedControls`). -/
theorem first_render_reactions_spec (s : Session) (nid : Nat) (i : Int)
    (hrun : s.running = false) (hv : valid_page s i = true) :
    ∃ s1 page,
      show_page s nid i =
        Except.ok (s1, Effect.send nid page ::
          (attachedControls s.pages.length).map (fun r => Effect.addReaction nid r),
          nid + 1) ∧
      s1.running = true ∧ s1.base = some nid := by
  rw [show_page_fresh_eq s nid i hrun hv]
  refine ⟨freshSession s nid i, renderedPage s i.toNat, ?_, rfl, rfl⟩
  simp only [firstRenderReactions, renderedPages_length, controls_filter_eq]

theorem first_render_reactions_spec_witness :
    sAB.running = false ∧ valid_page sAB 0 = true ∧
      (∃ s1 page,
        show_page sAB 100 0 =
          Except.ok (s1, Effect.send 100 page ::
            (attachedControls sAB.pages.length).map (fun r => Effect.addReaction 100 r),
            100 + 1) ∧
        s1.running = true ∧ s1.base = some 100) :=
  ⟨rfl, by decide, first_render_reactions_spec sAB 100 0 rfl (by decide)⟩

theorem setFooter_idem (e : Embed) (t : String) :
    setFooter (setFooter e t) t = setFooter e t := rfl

theorem renderedPage_eq_of_num (s : Session) (i' : Nat)
    (hnum : s.page_num_enabled = true) :
    renderedPage s i' = setFooter (s.pages.getD i' emptyEmbed)
      (pageFooter (i' + 1) s.pages.length) := by
  unfold renderedPage
  rw [if_pos hnum]

theorem renderedPages_eq_of_num (s : Session) (i' : Nat)
    (hnum : s.page_num_enabled = true) :
    renderedPages s i' = s.pages.set i' (renderedPage s i') := by
  unfold renderedPages
  rw [if_pos hnum]

/-- Re-rendering is stable: any session `t` holding the already-rendered page
list of `s` renders the same page document again (the footer is overwritten,
not accumulated) and is left unchanged by a further render of the same index. -/
theorem rerender_stable (s t : Session) (i : Int)
    (hnum : s.page_num_enabled = true) (hi : i.toNat < s.pages.length)
    (hp : t.pages = renderedPages s i.toNat)
    (hn : t.page_num_enabled = true)
    (hc : t.current = i) :
    renderedPage t i.toNat = renderedPage s i.toNat ∧ editedSession t i = t := by
  have hpage : renderedPage t i.toNat = renderedPage s i.toNat := by
    rw [renderedPage_eq_of_num t i.toNat hn, hp,
        renderedPages_getD s i.toNat hi hnum, renderedPages_length,
        renderedPage_eq_of_num s i.toNat hnum]
    exact setFooter_idem _ _
  refine ⟨hpage, ?_⟩
  have hpages : renderedPages t i.toNat = t.pages := by
    rw [renderedPages_eq_of_num t i.toNat hn, hpage, hp,
        renderedPages_eq_of_num s i.toNat hnum, List.set_set]
  unfold editedSession
  rw [hpages, ← hc]

/-- C7: after any successful `show_page i` with page numbering enabled, the
page now stored at the cursor — the one displayed by the accompanying
send/edit — has its footer set to exactly `"Page {cursor+1}/{len(pages)}"`;
and re-rendering the same index is idempotent: the session state is returned
unchanged and the second render just edits in the very same page document, so
the footer is overwritten, never accumulated. -/
theorem footer_exact_and_idempotent (s : Session) (nid : Nat) (i : Int)
    (hnum : s.page_num_enabled = true) (hv : valid_page s i = true) (hwf : WF s) :
    ∃ s1 effs n1,
      show_page s nid i = Except.ok (s1, effs, n1) ∧
      s1.current = i ∧
      (s1.pages.getD s1.current.toNat emptyEmbed).footer =
        some (pageFooter (s1.current.toNat + 1) s1.pages.length) ∧
      show_page s1 n1 i =
        Except.ok (s1, [Effect.edit (s1.base.getD 0)
          (s1.pages.getD s1.current.toNat emptyEmbed)], n1) := by
  obtain ⟨hi0, hilt⟩ := (valid_page_true_iff s i).mp hv
  have hi' : i.toNat < s.pages.length := by omega
  have hget : (renderedPages s i.toNat).getD i.toNat emptyEmbed =
      renderedPage s i.toNat := renderedPages_getD s i.toNat hi' hnum
  have hfoot : (renderedPage s i.toNat).footer =
      some (pageFooter (i.toNat + 1) s.pages.length) := by
    rw [renderedPage_eq_of_num s i.toNat hnum]
    rfl
  by_cases hr : s.running = true
  · obtain ⟨b, hb⟩ : ∃ b, s.base = some b := by
      have hs := hwf hr
      cases hbase : s.base with
      | none => rw [hbase] at hs; simp at hs
      | some b => exact ⟨b, rfl⟩
    obtain ⟨hpage2, hsess2⟩ := rerender_stable s (editedSession s i) i hnum hi'
      rfl hnum rfl
    refine ⟨editedSession s i, _, nid, show_page_run_eq s nid i b hr hb hv,
      rfl, ?_, ?_⟩
    · simp only [editedSession]
      rw [hget, renderedPages_length]
      exact hfoot
    · have hv1 : valid_page (editedSession s i) i = true := by
        rw [valid_page_true_iff]
        simp only [editedSession]
        rw [renderedPages_length]
        omega
      rw [show_page_run_eq (editedSession s i) nid i b hr hb hv1,
        hpage2, hsess2]
      simp only [editedSession]
      rw [hget]
      simp [hb]
  · have hrf : s.running = false := by
      revert hr
      cases s.running <;> simp
    obtain ⟨hpage2, hsess2⟩ := rerender_stable s (freshSession s nid i) i hnum hi'
      rfl hnum rfl
    refine ⟨freshSession s nid i, _, nid + 1,
      show_page_fresh_eq s nid i hrf hv, rfl, ?_, ?_⟩
    · simp only [freshSession]
      rw [hget, renderedPages_length]
      exact hfoot
    · have hv1 : valid_page (freshSession s nid i) i = true := by
        rw [valid_page_true_iff]
        simp only [freshSession]
        rw [renderedPages_length]
        omega
      have heq := show_page_run_eq (freshSession s nid i) (nid + 1) i nid
        rfl rfl hv1
      rw [heq]
      have : editedSession (freshSession s nid i) i = freshSession s nid i := hsess2
      rw [this, hpage2]
      simp only [freshSession]
      rw [hget]
      simp

theorem footer_exact_and_idempotent_witness :
    sA.page_num_enabled = true ∧ valid_page sA 0 = true ∧
      (∃ s1 effs n1,
        show_page sA 100 0 = Except.ok (s1, effs, n1) ∧
        s1.current = 0 ∧
        (s1.pages.getD s1.current.toNat emptyEmbed).footer =
          some (pageFooter (s1.current.toNat + 1) s1.pages.length) ∧
        show_page s1 n1 0 =
          Except.ok (s1, [Effect.edit (s1.base.getD 0)
            (s1.pages.getD s1.current.toNat emptyEmbed)], n1)) :=
  ⟨rfl, by decide, footer_exact_and_idempotent sA 100 0 rfl (by decide)
    (by intro h; exact absurd h (by decide))⟩

/-- C4: in the page-jump dialog, an accepted (all-digit, nonempty) reply whose
integer value is `k` with `1 ≤ k ≤ len(pages)` makes the dialog navigate via
`show_page(k-1)` — the session and display effects are exactly those of that
call, wrapped in the dialog's prompt and cleanup; a reply with value `0` or
value greater than `len(pages)` never navigates (the session is returned
unchanged, no edit happens) and sends the invalid-page notice carrying the
out-of-range value and the page count. -/
theorem ask_for_page_reply_range (o : Oracle) (s : Session) (nid mid : Nat)
    (c : String) (k : Nat) (_hd : pyIsDigit c = true) (hk : pyParseNat c = k) :
    (1 ≤ k ∧ k ≤ s.pages.length →
      ask_for_page o s nid (JumpEvent.message mid c) =
        (match show_page s (nid + 1) ((k : Int) - 1) with
         | Except.error e => Except.error e
         | Except.ok (s1, effs, nid2) =>
           Except.ok (s1, Effect.sendText nid promptText :: effs ++
             [Effect.sleep 5, Effect.deleteMessagesAttempt [nid, mid]], nid2))) ∧
    (k = 0 ∨ s.pages.length < k →
      ask_for_page o s nid (JumpEvent.message mid c) =
        Except.ok (s, [Effect.sendText nid promptText,
          Effect.sendText (nid + 1) (invalidPageMsg k s.pages.length),
          Effect.sleep 5, Effect.deleteMessagesAttempt [nid, mid, nid + 1]],
          nid + 1 + 1)) := by
  constructor
  · intro hin
    have hcond : k ≠ 0 ∧ k ≤ s.pages.length := by omega
    simp only [ask_for_page, hk]
    rw [if_pos hcond]
  · intro hout
    have hcond : ¬ (k ≠ 0 ∧ k ≤ s.pages.length) := by omega
    simp only [ask_for_page, hk]
    rw [if_neg hcond]

theorem ask_for_page_reply_range_witness :
    (1 ≤ 2 ∧ 2 ≤ sAB.pages.length) ∧
    ask_for_page o0 sAB 10 (JumpEvent.message 55 "2") =
      (match show_page sAB (10 + 1) ((2 : Int) - 1) with
       | Except.error e => Except.error e
       | Except.ok (s1, effs, nid2) =>
         Except.ok (s1, Effect.sendText 10 promptText :: effs ++
           [Effect.sleep 5, Effect.deleteMessagesAttempt [10, 55]], nid2)) :=
  ⟨by decide,
   (ask_for_page_reply_range o0 sAB 10 55 "2" 2 (by decide) (by decide)).1 (by decide)⟩

/-- C1 (code bug, evaluated at the failing input): a one-page session whose
outer wait times out.  The loop does exit without retrying (the later reaction
event is never processed) and a best-effort clear of all reactions is in the
trace, but the timeout handler assigns `paginating = False` — an attribute read
nowhere — instead of `running`, so `running` is still `true` afterwards,
contradicting the claim. -/
theorem run_timeout_leaves_running_true :
    run o0 sA 100 [OuterEvent.timeout, OuterEvent.react '▶'] [] =
      Except.ok (sAfterTimeout,
        [Effect.send 100 (setFooter pageA (pageFooter 1 1)),
         Effect.addReaction 100 '⏮', Effect.addReaction 100 '◀',
         Effect.addReaction 100 '⏹', Effect.addReaction 100 '▶',
         Effect.addReaction 100 '⏭', Effect.addReaction 100 '🔢',
         Effect.addReaction 100 '🤔',
         Effect.clearReactionsAttempt 100], 101) := by
  rfl

end Paginator
